import Mathlib

/-!
Verification of the Roadcast route-safety core.

This file gives a shallow embedding, in Lean, of the risk-scoring,
route-sampling, gradient-encoding, nearby-statistics, circuit-breaker and
AI-enrichment functions of the Roadcast web application, and proves (or
refutes) the testable properties stated for them.

Modelling conventions:
* JavaScript numbers are modelled as rationals; the crash-record counts are
  rationals as well, since nothing in the source constrains them to
  integers.
* The haversine distance is a fixed real-valued transcendental function in
  the source; every embedded function that consumes it is parameterised by
  an abstract distance function instead, so the theorems quantify over the
  metric and concrete evaluations can instantiate it with a computable one.
* Mapbox expression values are modelled by the list of (position, color)
  stops they carry; the constant header part of the expression is dropped.
* Rational division by zero is 0 in Lean while it is NaN in JavaScript;
  no theorem below depends on a division whose divisor can be zero, except
  where explicitly noted in a comment.
-/

namespace Roadcast

/-- One historical crash record, translated from the CrashData type in
src/web/src/app/api/crashes/route.ts.  The severity string is read
dynamically (untyped) by MapView.tsx, hence optional here. -/
structure CrashData where
  id : String
  latitude : ℚ
  longitude : ℚ
  reportDate : String
  address : String
  ward : String
  totalVehicles : ℚ
  totalPedestrians : ℚ
  totalBicycles : ℚ
  fatalDriver : ℚ
  fatalPedestrian : ℚ
  fatalBicyclist : ℚ
  majorInjuriesDriver : ℚ
  majorInjuriesPedestrian : ℚ
  majorInjuriesBicyclist : ℚ
  speedingInvolved : ℚ
  severity : Option String
deriving Repr, DecidableEq

/-- A GeoJSON point feature as produced by the converters: coordinates are
(longitude, latitude), with the display magnitude and provenance flag. -/
structure PointFeature where
  coordinates : ℚ × ℚ
  mag : ℚ
  crashData : CrashData
  aiPredicted : Bool
deriving Repr, DecidableEq

/-- An abstract point-to-point distance, standing in for the haversine
function of the source (which is real-valued and transcendental). -/
def DistFn : Type := ℚ × ℚ → ℚ × ℚ → ℚ

end Roadcast

namespace Roadcast.LibMapUtils

open Roadcast

/-- Translation of calculateTraditionalMagnitude from
src/web/src/lib/mapUtils.ts: 3 per fatality, 2 per major injury, a capped
half-point bonus per involved party beyond the first, a 1.2 speeding
multiplier, clamped into [1, 10]. -/
def calculateTraditionalMagnitude (crash : CrashData) : ℚ :=
  let fatalities := crash.fatalDriver + crash.fatalPedestrian + crash.fatalBicyclist
  let majorInjuries :=
    crash.majorInjuriesDriver + crash.majorInjuriesPedestrian + crash.majorInjuriesBicyclist
  let vehicleCount := crash.totalVehicles + crash.totalPedestrians + crash.totalBicycles
  let magnitude := fatalities * 3 + majorInjuries * 2 + min (vehicleCount - 1) 3 * (1/2)
  let magnitude := if 0 < crash.speedingInvolved then magnitude * (12/10) else magnitude
  max 1 (min magnitude 10)

/-- The coordinate-validity filter of convertCrashDataToGeoJSON in
src/web/src/lib/mapUtils.ts.  The typeof and isNaN guards of the source are
vacuous on rationals; the non-zero checks remain. -/
def hasValidCoords (crash : CrashData) : Bool :=
  crash.latitude != 0 && crash.longitude != 0

/-- Translation of convertCrashDataToGeoJSON from
src/web/src/lib/mapUtils.ts: filter out invalid coordinates, then one
feature per crash whose display magnitude is the traditional magnitude
capped at 6. -/
def convertCrashDataToGeoJSON (crashes : List CrashData) : List PointFeature :=
  (crashes.filter hasValidCoords).map fun crash =>
    { coordinates := (crash.longitude, crash.latitude)
      mag := min 6 (calculateTraditionalMagnitude crash)
      crashData := crash
      aiPredicted := false }

/-- Translation of calculateRouteSegmentDensities from
src/web/src/lib/mapUtils.ts: for a polyline with fewer than two vertices the
result is empty; otherwise one crash count per consecutive coordinate pair,
where a crash is near a segment when its distance to the nearer endpoint is
within the buffer. -/
def calculateRouteSegmentDensities (dist : DistFn)
    (routeCoordinates : List (ℚ × ℚ)) (crashes : List CrashData)
    (bufferMeters : ℚ) : List ℚ :=
  if routeCoordinates.length < 2 then []
  else
    (List.range (routeCoordinates.length - 1)).map fun i =>
      let segmentStart := routeCoordinates.getD i (0, 0)
      let segmentEnd := routeCoordinates.getD (i + 1) (0, 0)
      ((crashes.filter fun crash =>
        let crashPoint := (crash.longitude, crash.latitude)
        min (dist crashPoint segmentStart) (dist crashPoint segmentEnd)
          ≤ bufferMeters).length : ℚ)

/-- The relative-intensity color bucketing of createRouteGradientStops in
src/web/src/lib/mapUtils.ts. -/
def gradientColor (intensity : ℚ) : String :=
  if 7/10 < intensity then "#ff0000"
  else if 4/10 < intensity then "#ff6600"
  else if 2/10 < intensity then "#ffff00"
  else "#00ff00"

/-- Translation of createRouteGradientStops from
src/web/src/lib/mapUtils.ts, as the list of (position, color) stops of the
produced Mapbox expression.  Empty input yields the flat green default;
otherwise one stop per segment at position index / max(1, n-1), colored by
density relative to max(densities, 1), with the last color duplicated at
position 1 when there is a single segment. -/
def createRouteGradientStops (segmentDensities : List ℚ) : List (ℚ × String) :=
  if segmentDensities.length = 0 then
    [(0, "#00ff00"), (1, "#00ff00")]
  else
    let maxDensity := segmentDensities.foldl max 1
    let stops := segmentDensities.enum.map fun p =>
      let position := (p.1 : ℚ) / max 1 ((segmentDensities.length : ℚ) - 1)
      (position, gradientColor (p.2 / maxDensity))
    if segmentDensities.length = 1 then
      stops ++ [(1, (stops.getLastD (0, "#00ff00")).2)]
    else stops

end Roadcast.LibMapUtils

namespace Roadcast.AppMapUtils

open Roadcast

/-- The fallback severity score computed inside convertCrashDataToGeoJSON in
src/web/src/app/lib/mapUtils.ts: 3 per fatality, 2 per major injury, 1 per
involved party, floored at 1 (uncapped above). -/
def fallbackSeverityScore (crash : CrashData) : ℚ :=
  max 1
    ((crash.fatalDriver + crash.fatalPedestrian + crash.fatalBicyclist) * 3 +
      (crash.majorInjuriesDriver + crash.majorInjuriesPedestrian +
        crash.majorInjuriesBicyclist) * 2 +
      (crash.totalVehicles + crash.totalPedestrians + crash.totalBicycles))

/-- Translation of convertCrashDataToGeoJSON from
src/web/src/app/lib/mapUtils.ts: one feature per crash (no validity filter
in this variant), display magnitude capped at 6. -/
def convertCrashDataToGeoJSON (crashes : List CrashData) : List PointFeature :=
  crashes.map fun crash =>
    { coordinates := (crash.longitude, crash.latitude)
      mag := min 6 (fallbackSeverityScore crash)
      crashData := crash
      aiPredicted := false }

/-- The per-incident corridor danger weight computed inside
calculateRouteCrashDensity in src/web/src/app/lib/mapUtils.ts: 5 per
fatality, 3 per major injury, 1 per involved party, floored at 1. -/
def dangerWeight (crash : CrashData) : ℚ :=
  max 1
    ((crash.fatalDriver + crash.fatalPedestrian + crash.fatalBicyclist) * 5 +
      (crash.majorInjuriesDriver + crash.majorInjuriesPedestrian +
        crash.majorInjuriesBicyclist) * 3 +
      (crash.totalVehicles + crash.totalPedestrians + crash.totalBicycles))

/-- Translation of calculateRouteCrashDensity from
src/web/src/app/lib/mapUtils.ts: for each route coordinate, sum the danger
weights of the crashes within the search radius of that point, then
normalise by min(1, sum / 20).  An empty coordinate list yields an empty
result. -/
def calculateRouteCrashDensity (dist : DistFn)
    (routeCoordinates : List (ℚ × ℚ)) (crashData : List CrashData)
    (searchRadiusMeters : ℚ) : List ℚ :=
  routeCoordinates.map fun currentPoint =>
    let severityScore :=
      (crashData.filter fun crash =>
        dist currentPoint (crash.longitude, crash.latitude)
          ≤ searchRadiusMeters).foldl (fun acc crash => acc + dangerWeight crash) 0
    min 1 (severityScore / 20)

/-- The absolute-density color bucketing of createRouteGradientStops in
src/web/src/app/lib/mapUtils.ts. -/
def gradientColor (density : ℚ) : String :=
  if density < 2/10 then "#22c55e"
  else if density < 4/10 then "#eab308"
  else if density < 6/10 then "#f97316"
  else if density < 8/10 then "#dc2626"
  else "#7f1d1d"

/-- Translation of createRouteGradientStops from
src/web/src/app/lib/mapUtils.ts, as its (position, color) stops.  Empty
input yields a green-to-red default pair; otherwise one stop per density
at position i / (n - 1).  For n = 1 the source divides 0 by 0 (NaN in
JavaScript, 0 here); no theorem below rests on that branch beyond the
length of the produced list. -/
def createRouteGradientStops (densities : List ℚ) : List (ℚ × String) :=
  if densities.length = 0 then
    [(0, "green"), (1, "red")]
  else
    densities.enum.map fun p =>
      ((p.1 : ℚ) / ((densities.length : ℚ) - 1), gradientColor p.2)

/-- JavaScript Math.round: round half away from zero upward. -/
def jsRound (q : ℚ) : ℤ := ⌊q + 1/2⌋

/-- The AI-magnitude clamp of convertCrashDataToGeoJSONWithAI in
src/web/src/app/lib/mapUtils.ts: round, then clamp into [1, 10]. -/
def aiMagnitude (p : ℚ) : ℚ := max 1 (min 10 (jsRound p : ℚ))

/-- The per-feature enrichment step of convertCrashDataToGeoJSONWithAI:
a usable numeric prediction overrides the magnitude (rounded and clamped)
and marks the feature AI-predicted; a missing or failed prediction leaves
the feature untouched. -/
def enhanceFeature (f : PointFeature) (pred : Option ℚ) : PointFeature :=
  match pred with
  | some p => { f with mag := aiMagnitude p, aiPredicted := true }
  | none => f

/-- Translation of convertCrashDataToGeoJSONWithAI from
src/web/src/app/lib/mapUtils.ts.  The asynchronous batched fetch is
abstracted by the list of per-crash prediction outcomes (none for a failed
or unusable prediction); the index-aligned in-place updates of the source
become a zip of the base features with those outcomes. -/
def convertCrashDataToGeoJSONWithAI (crashes : List CrashData)
    (preds : List (Option ℚ)) : List PointFeature :=
  List.zipWith enhanceFeature (convertCrashDataToGeoJSON crashes) preds

/-- The magnitude selection of generateDCPointsWithAI in
src/web/src/app/lib/mapUtils.ts: a usable prediction is rounded and clamped
into [1, 10]; otherwise the locally generated fallback magnitude is kept. -/
def generateDCPointMag (pred : Option ℚ) (fallbackMag : ℚ) : ℚ :=
  match pred with
  | some p => aiMagnitude p
  | none => fallbackMag

end Roadcast.AppMapUtils

namespace Roadcast.MapComponents

open Roadcast

/-- The result shape of computeNearbyStats in the map components
(src/unnamed/part_008 and part_009): the average, minimum, maximum and
radius fields are only present when at least one feature is in range. -/
structure NearbyStats where
  count : ℕ
  avg : Option ℚ
  minMag : Option ℚ
  maxMag : Option ℚ
  radiusMeters : Option ℚ
deriving Repr, DecidableEq

/-- JavaScript toFixed(2) followed by unary plus: round to two decimals
(half away from zero upward for the non-negative magnitudes involved). -/
def toFixed2 (q : ℚ) : ℚ := (⌊q * 100 + 1/2⌋ : ℚ) / 100

/-- Translation of computeNearbyStats from src/unnamed/part_008 lines
89-100 and part_009 lines 219-231: collect the magnitudes of the features
within the radius of the center; with none in range (or no data at all)
the result is just a zero count, otherwise count, two-decimal average,
minimum, maximum and the radius. -/
def computeNearbyStats (dist : DistFn) (data : Option (List PointFeature))
    (center : ℚ × ℚ) (radiusMeters : ℚ) : NearbyStats :=
  match data with
  | none => ⟨0, none, none, none, none⟩
  | some features =>
    let mags := (features.filter fun f =>
      dist center f.coordinates ≤ radiusMeters).map (·.mag)
    match mags with
    | [] => ⟨0, none, none, none, none⟩
    | m :: rest =>
      let sum := (m :: rest).foldl (· + ·) 0
      ⟨(m :: rest).length, some (toFixed2 (sum / ((m :: rest).length : ℚ))),
        some (rest.foldl min m), some (rest.foldl max m), some radiusMeters⟩

/-- The per-severity-class counts built by computeNearbyStats in
src/web/src/app/components/MapView.tsx. -/
structure SeverityCounts where
  fatal : ℕ
  majorInjury : ℕ
  minorInjury : ℕ
  propertyOnly : ℕ
deriving Repr, DecidableEq

/-- The result shape of computeNearbyStats in MapView.tsx: the severity
breakdown is only present when at least one crash is in range. -/
structure NearbyCrashStats where
  count : ℕ
  radiusMeters : ℚ
  severityCounts : Option SeverityCounts
  crashes : List CrashData
deriving Repr, DecidableEq

/-- The severity histogram of computeNearbyStats in MapView.tsx. -/
def countSeverities (crashes : List CrashData) : SeverityCounts :=
  ⟨(crashes.filter fun c => c.severity == some "Fatal").length,
    (crashes.filter fun c => c.severity == some "Major Injury").length,
    (crashes.filter fun c => c.severity == some "Minor Injury").length,
    (crashes.filter fun c => c.severity == some "Property Damage Only").length⟩

/-- The crash-validity filter of the API fallback path of
computeNearbyStats in MapView.tsx. -/
def isValidCrash (c : CrashData) : Bool :=
  c.id != "" && c.latitude != 0 && c.longitude != 0

/-- Translation of computeNearbyStats from
src/web/src/app/components/MapView.tsx lines 244-341.  When client-side
crash data is available, the crashes within the radius are counted with a
severity breakdown, zero in range giving count 0 with the radius and no
breakdown; otherwise the list fetched from the nearby-crashes API (already
radius-filtered server side) is used after a validity filter.  The
distance function abstracts the component's own haversine helper. -/
def mapViewComputeNearbyStats (dist : DistFn) (activeData : List CrashData)
    (fetched : List CrashData) (center : ℚ × ℚ) (radiusMeters : ℚ) :
    NearbyCrashStats :=
  if 0 < activeData.length then
    let nearbyCrashes := activeData.filter fun c =>
      dist center (c.longitude, c.latitude) ≤ radiusMeters
    if nearbyCrashes.length = 0 then ⟨0, radiusMeters, none, []⟩
    else
      ⟨nearbyCrashes.length, radiusMeters, some (countSeverities nearbyCrashes),
        nearbyCrashes.take 5⟩
  else
    let validCrashes := fetched.filter isValidCrash
    if validCrashes.length = 0 then ⟨0, radiusMeters, none, []⟩
    else
      ⟨validCrashes.length, radiusMeters, some (countSeverities validCrashes),
        validCrashes.take 5⟩

end Roadcast.MapComponents

namespace Roadcast.CrashMagnitudeApi

open Roadcast

/-- Failure threshold of the circuit breaker in
src/web/src/lib/crashMagnitudeApi.ts. -/
def CIRCUIT_BREAKER_THRESHOLD : ℕ := 3

/-- Cool-down (reset time) of the circuit breaker, in milliseconds. -/
def CIRCUIT_BREAKER_RESET_TIME : ℤ := 300000

/-- The module-level mutable state of the circuit breaker in
src/web/src/lib/crashMagnitudeApi.ts: consecutive-failure counter and the
timestamp of the last failure. -/
structure BreakerState where
  circuitBreakerFailures : ℕ
  circuitBreakerLastFailTime : ℤ
deriving Repr, DecidableEq

/-- Translation of isCircuitBreakerOpen: past the reset time since the last
failure the counter is cleared and the breaker reports closed; otherwise it
reports open exactly when the counter has reached the threshold.  The
returned state records the counter clearing the source performs in place. -/
def isCircuitBreakerOpen (s : BreakerState) (now : ℤ) : BreakerState × Bool :=
  if CIRCUIT_BREAKER_RESET_TIME < now - s.circuitBreakerLastFailTime then
    ({ s with circuitBreakerFailures := 0 }, false)
  else
    (s, decide (CIRCUIT_BREAKER_THRESHOLD ≤ s.circuitBreakerFailures))

/-- Translation of recordCircuitBreakerFailure: bump the counter and stamp
the failure time. -/
def recordCircuitBreakerFailure (s : BreakerState) (now : ℤ) : BreakerState :=
  ⟨s.circuitBreakerFailures + 1, now⟩

/-- Translation of recordCircuitBreakerSuccess: clear the counter. -/
def recordCircuitBreakerSuccess (s : BreakerState) : BreakerState :=
  { s with circuitBreakerFailures := 0 }

/-- The breaker-relevant control flow of getCrashMagnitudePrediction in
src/web/src/lib/crashMagnitudeApi.ts: consult the breaker first and
short-circuit when it is open; otherwise attempt the network call, whose
outcome (abstracted by the boolean) feeds the success or failure recorder.
The returned boolean tells whether a network attempt was made. -/
def getCrashMagnitudePredictionStep (s : BreakerState) (now : ℤ)
    (succeeds : Bool) : BreakerState × Bool :=
  let checked := isCircuitBreakerOpen s now
  if checked.2 then (checked.1, false)
  else if succeeds then (recordCircuitBreakerSuccess checked.1, true)
  else (recordCircuitBreakerFailure checked.1 now, true)

end Roadcast.CrashMagnitudeApi

namespace Roadcast.DirectionsSidebar

open Roadcast

/-- A provider-supplied candidate route as consumed by handleGetRoute in
src/web/src/app/components/DirectionsSidebar.tsx: geometry, duration and
distance. -/
structure RouteCandidate where
  geometry : List (ℚ × ℚ)
  duration : ℚ
  distance : ℚ
deriving Repr, DecidableEq

/-- The route selection performed by handleGetRoute in
src/web/src/app/components/DirectionsSidebar.tsx lines 347-356 (and
src/unnamed/part_011 lines 405-414): with no routes the request aborts;
otherwise setSelectedRouteIndex(0) selects the provider's first route. -/
def handleGetRouteSelectedIndex (routes : List RouteCandidate) : Option ℕ :=
  if routes.isEmpty then none else some 0

/-- Modelled from the spec: the Route Candidate Comparator of §4.5 is not
part of the client source (the recommended safe route is fetched from an
external service); this is its normalisation rule in the spec's words —
the corridor score of a candidate divided by its sample count — built on
the corridor densities the client does compute. -/
def routeNormalizedRisk (dist : DistFn) (crashes : List CrashData)
    (searchRadiusMeters : ℚ) (route : RouteCandidate) : ℚ :=
  let densities :=
    AppMapUtils.calculateRouteCrashDensity dist route.geometry crashes
      searchRadiusMeters
  densities.foldl (· + ·) 0 / max 1 (densities.length : ℚ)

end Roadcast.DirectionsSidebar

namespace Roadcast.SpecModel

open Roadcast

/-- Modelled from the spec: the per-incident corridor danger weight as the
spec states it (§4.4) — fatalities times 5 plus major injuries times 3 plus
other involvement times 1, with no floor. -/
def dangerWeightSpec (crash : CrashData) : ℚ :=
  (crash.fatalDriver + crash.fatalPedestrian + crash.fatalBicyclist) * 5 +
    (crash.majorInjuriesDriver + crash.majorInjuriesPedestrian +
      crash.majorInjuriesBicyclist) * 3 +
    (crash.totalVehicles + crash.totalPedestrians + crash.totalBicycles)

end Roadcast.SpecModel

namespace Roadcast.TestData

open Roadcast

/-- A computable stand-in distance for concrete evaluations: zero between
identical points, 1000 otherwise. -/
def discreteDist : DistFn := fun a b => if a = b then 0 else 1000

/-- A crash record with every numeric field zero (used as concrete input). -/
def zeroCrash : CrashData :=
  ⟨"z", 1, 1, "", "", "", 0, 0, 0, 0, 0, 0, 0, 0, 0, 0, none⟩

/-- A single-fatality crash at longitude 0, latitude 0. -/
def fatalCrash : CrashData :=
  ⟨"f", 0, 0, "", "", "", 0, 0, 0, 1, 0, 0, 0, 0, 0, 0, none⟩

/-- A crash located away from the origin (longitude 5, latitude 5). -/
def farCrash : CrashData :=
  ⟨"far", 5, 5, "", "", "", 1, 0, 0, 0, 0, 0, 1, 0, 0, 0, none⟩

/-- A faster candidate route passing through the fatal crash location. -/
def routeA : DirectionsSidebar.RouteCandidate := ⟨[(0, 0)], 10, 1⟩

/-- A slower candidate route away from every crash. -/
def routeB : DirectionsSidebar.RouteCandidate := ⟨[(9, 9)], 12, 1⟩

end Roadcast.TestData

namespace Roadcast

open Roadcast

/-- Folding max over a list commutes with joining an extra element into the
initial accumulator. -/
lemma foldl_max_max (l : List ℚ) : ∀ a b : ℚ,
    l.foldl max (max a b) = max a (l.foldl max b) := by
  induction l with
  | nil => intro a b; rfl
  | cons x xs ih =>
    intro a b
    simp only [List.foldl_cons]
    rw [max_assoc, ih]

/-- Multiplying by a non-negative constant distributes over folding max. -/
lemma foldl_max_map_mul (c : ℚ) (hc : 0 ≤ c) (l : List ℚ) : ∀ a : ℚ,
    (l.map fun d => c * d).foldl max (c * a) = c * l.foldl max a := by
  induction l with
  | nil => intro a; rfl
  | cons x xs ih =>
    intro a
    simp only [List.map_cons, List.foldl_cons]
    rw [← mul_max_of_nonneg _ _ hc, ih]

/-- Mapping a function before enumerating only transforms the values. -/
lemma enumFrom_map {α β : Type} (f : α → β) (l : List α) : ∀ n : ℕ,
    (l.map f).enumFrom n = (l.enumFrom n).map (Prod.map id f) := by
  induction l with
  | nil => intro n; rfl
  | cons x xs ih => intro n; simp [List.enumFrom, ih]

/-- Mapping a function before enumerating only transforms the values. -/
lemma enum_map {α β : Type} (f : α → β) (l : List α) :
    (l.map f).enum = l.enum.map (Prod.map id f) :=
  enumFrom_map f l 0

/-- A left fold that keeps adding images equals the initial value plus the
sum of the images. -/
lemma foldl_add_eq_sum {α : Type} (f : α → ℚ) (l : List α) : ∀ a : ℚ,
    l.foldl (fun acc x => acc + f x) a = a + (l.map f).sum := by
  induction l with
  | nil => intro a; simp
  | cons x xs ih => intro a; simp [ih, add_assoc]

/-- The traditional magnitude is at least its floor of 1. -/
lemma one_le_calculateTraditionalMagnitude (crash : CrashData) :
    1 ≤ LibMapUtils.calculateTraditionalMagnitude crash :=
  le_max_left 1 _

/-- The traditional magnitude never exceeds its cap of 10. -/
lemma calculateTraditionalMagnitude_le_ten (crash : CrashData) :
    LibMapUtils.calculateTraditionalMagnitude crash ≤ 10 := by
  unfold LibMapUtils.calculateTraditionalMagnitude
  exact max_le (by norm_num) (min_le_right _ _)

/-- C2.  For every crash record — zero involvement included — the
per-record traditional magnitude lies in the profile range [1, 10], and the
display magnitude stored on every GeoJSON feature built by the converter
lies in [1, 6]. -/
theorem claim_C2_magnitude_clamped (crash : CrashData)
    (crashes : List CrashData) (f : PointFeature)
    (hf : f ∈ LibMapUtils.convertCrashDataToGeoJSON crashes) :
    1 ≤ LibMapUtils.calculateTraditionalMagnitude crash ∧
      LibMapUtils.calculateTraditionalMagnitude crash ≤ 10 ∧
      1 ≤ f.mag ∧ f.mag ≤ 6 := by
  refine ⟨one_le_calculateTraditionalMagnitude crash,
    calculateTraditionalMagnitude_le_ten crash, ?_, ?_⟩ <;>
  · unfold LibMapUtils.convertCrashDataToGeoJSON at hf
    rcases List.mem_map.1 hf with ⟨c, _, rfl⟩
    simp only []
    first
    | exact le_min (by norm_num) (one_le_calculateTraditionalMagnitude c)
    | exact min_le_left _ _

/-- C2 witness: the all-zero crash record evaluates inside the bounds. -/
theorem claim_C2_witness :
    1 ≤ LibMapUtils.calculateTraditionalMagnitude TestData.zeroCrash ∧
      LibMapUtils.calculateTraditionalMagnitude TestData.zeroCrash ≤ 10 ∧
      1 ≤ (⟨(1, 1),
        min 6 (LibMapUtils.calculateTraditionalMagnitude TestData.zeroCrash),
        TestData.zeroCrash, false⟩ : PointFeature).mag ∧
      (⟨(1, 1),
        min 6 (LibMapUtils.calculateTraditionalMagnitude TestData.zeroCrash),
        TestData.zeroCrash, false⟩ : PointFeature).mag ≤ 6 := by
  apply claim_C2_magnitude_clamped TestData.zeroCrash [TestData.zeroCrash]
  unfold LibMapUtils.convertCrashDataToGeoJSON
  refine List.mem_map.2 ⟨TestData.zeroCrash, ?_, rfl⟩
  simp [TestData.zeroCrash, LibMapUtils.hasValidCoords]

/-- C5.  Both severity scores — the traditional point magnitude and the
fallback severity of the app converter — are monotonically non-decreasing
when any fatality count or any major-injury count increases while every
other field stays fixed. -/
theorem claim_C5_severity_monotone (c c' : CrashData)
    (hfd : c.fatalDriver ≤ c'.fatalDriver)
    (hfp : c.fatalPedestrian ≤ c'.fatalPedestrian)
    (hfb : c.fatalBicyclist ≤ c'.fatalBicyclist)
    (hmd : c.majorInjuriesDriver ≤ c'.majorInjuriesDriver)
    (hmp : c.majorInjuriesPedestrian ≤ c'.majorInjuriesPedestrian)
    (hmb : c.majorInjuriesBicyclist ≤ c'.majorInjuriesBicyclist)
    (hv : c.totalVehicles = c'.totalVehicles)
    (hp : c.totalPedestrians = c'.totalPedestrians)
    (hb : c.totalBicycles = c'.totalBicycles)
    (hs : c.speedingInvolved = c'.speedingInvolved) :
    LibMapUtils.calculateTraditionalMagnitude c
        ≤ LibMapUtils.calculateTraditionalMagnitude c' ∧
      AppMapUtils.fallbackSeverityScore c ≤ AppMapUtils.fallbackSeverityScore c' := by
  have hbase :
      (c.fatalDriver + c.fatalPedestrian + c.fatalBicyclist) * 3 +
          (c.majorInjuriesDriver + c.majorInjuriesPedestrian +
            c.majorInjuriesBicyclist) * 2 +
          min (c.totalVehicles + c.totalPedestrians + c.totalBicycles - 1) 3 * (1/2)
        ≤ (c'.fatalDriver + c'.fatalPedestrian + c'.fatalBicyclist) * 3 +
          (c'.majorInjuriesDriver + c'.majorInjuriesPedestrian +
            c'.majorInjuriesBicyclist) * 2 +
          min (c'.totalVehicles + c'.totalPedestrians + c'.totalBicycles - 1) 3
            * (1/2) := by
    rw [hv, hp, hb]
    gcongr
  constructor
  · unfold LibMapUtils.calculateTraditionalMagnitude
    rw [hs]
    split
    · exact max_le_max le_rfl (min_le_min (by gcongr) le_rfl)
    · exact max_le_max le_rfl (min_le_min hbase le_rfl)
  · unfold AppMapUtils.fallbackSeverityScore
    rw [hv, hp, hb]
    gcongr

/-- C5 witness: adding one driver fatality to the all-zero record does not
decrease either score. -/
theorem claim_C5_witness :
    LibMapUtils.calculateTraditionalMagnitude TestData.zeroCrash
        ≤ LibMapUtils.calculateTraditionalMagnitude
          { TestData.zeroCrash with fatalDriver := 1 } ∧
      AppMapUtils.fallbackSeverityScore TestData.zeroCrash
        ≤ AppMapUtils.fallbackSeverityScore
          { TestData.zeroCrash with fatalDriver := 1 } :=
  claim_C5_severity_monotone TestData.zeroCrash
    { TestData.zeroCrash with fatalDriver := 1 }
    (by norm_num [TestData.zeroCrash]) le_rfl le_rfl le_rfl le_rfl le_rfl
    rfl rfl rfl rfl

/-- C6.  The segment-midpoint density sampler returns the empty list on a
polyline with zero or one vertices, and on any polyline its output has one
entry per consecutive coordinate pair (vertex count minus one). -/
theorem claim_C6_segment_density_length (dist : DistFn)
    (coords : List (ℚ × ℚ)) (crashes : List CrashData) (buffer : ℚ)
    (p : ℚ × ℚ) :
    LibMapUtils.calculateRouteSegmentDensities dist [] crashes buffer = [] ∧
      LibMapUtils.calculateRouteSegmentDensities dist [p] crashes buffer = [] ∧
      (LibMapUtils.calculateRouteSegmentDensities dist coords crashes
          buffer).length = coords.length - 1 := by
  unfold LibMapUtils.calculateRouteSegmentDensities
  refine ⟨rfl, rfl, ?_⟩
  by_cases h : coords.length < 2
  · rw [if_pos h]
    interval_cases hlen : coords.length <;> simp [hlen]
  · rw [if_neg h]
    simp

/-- C4.  With zero incidents inside the radius the nearby statistics carry
count 0 and no fabricated average, minimum or maximum, in both map
components; and the MapView variant of the query (default radius 300 m)
additionally reports the radius and omits the severity breakdown. -/
theorem claim_C4_empty_nearby_stats (dist : DistFn)
    (features : List PointFeature) (activeData fetched : List CrashData)
    (center : ℚ × ℚ) (radius : ℚ)
    (hfeat : ∀ f ∈ features, ¬ dist center f.coordinates ≤ radius)
    (hactive : activeData ≠ [])
    (hnear : ∀ c ∈ activeData, ¬ dist center (c.longitude, c.latitude) ≤ 300) :
    MapComponents.computeNearbyStats dist (some features) center radius
        = ⟨0, none, none, none, none⟩ ∧
      MapComponents.computeNearbyStats dist none center radius
        = ⟨0, none, none, none, none⟩ ∧
      MapComponents.mapViewComputeNearbyStats dist activeData fetched center 300
        = ⟨0, 300, none, []⟩ := by
  refine ⟨?_, rfl, ?_⟩
  · have hfil : features.filter
        (fun f => decide (dist center f.coordinates ≤ radius)) = [] :=
      List.filter_eq_nil_iff.2 fun f hf => by
        simpa using hfeat f hf
    unfold MapComponents.computeNearbyStats
    simp [hfil]
  · have hfil : activeData.filter
        (fun c => decide (dist center (c.longitude, c.latitude) ≤ 300)) = [] :=
      List.filter_eq_nil_iff.2 fun c hc => by
        simpa using hnear c hc
    unfold MapComponents.mapViewComputeNearbyStats
    rw [if_pos (List.length_pos.2 hactive), hfil]
    rfl

/-- C4 witness: a single feature and a single crash record, both away from
the query point, yield the empty statistics at radius 300. -/
theorem claim_C4_witness :
    MapComponents.computeNearbyStats TestData.discreteDist
        (some [⟨(5, 5), 3, TestData.farCrash, false⟩]) (0, 0) 300
        = ⟨0, none, none, none, none⟩ ∧
      MapComponents.computeNearbyStats TestData.discreteDist none (0, 0) 300
        = ⟨0, none, none, none, none⟩ ∧
      MapComponents.mapViewComputeNearbyStats TestData.discreteDist
        [TestData.farCrash] [] (0, 0) 300 = ⟨0, 300, none, []⟩ :=
  claim_C4_empty_nearby_stats TestData.discreteDist
    [⟨(5, 5), 3, TestData.farCrash, false⟩] [TestData.farCrash] [] (0, 0) 300
    (by decide) (by decide) (by decide)

/-- Every feature of the app converter has its AI flag cleared. -/
lemma app_convert_aiPredicted_false (crashes : List CrashData)
    (f : PointFeature) (hf : f ∈ AppMapUtils.convertCrashDataToGeoJSON crashes) :
    f.aiPredicted = false := by
  unfold AppMapUtils.convertCrashDataToGeoJSON at hf
  rcases List.mem_map.1 hf with ⟨c, _, rfl⟩
  rfl

/-- C10.  A successfully applied external prediction stores the predicted
value rounded and clamped into [1, 10] — an integer in range whatever the
service returned — and sets the AI flag; a missing or failed prediction
leaves the locally computed fallback feature untouched.  The same rounding
and clamping rule governs the synthetic-point generator. -/
theorem claim_C10_ai_prediction_applied (crashes : List CrashData)
    (preds : List (Option ℚ)) (i : ℕ) (f : PointFeature) (q r : ℚ)
    (hf : (AppMapUtils.convertCrashDataToGeoJSONWithAI crashes preds).get? i
      = some f) :
    (∀ p : ℚ, preds.get? i = some (some p) →
        f.mag = AppMapUtils.aiMagnitude p ∧ 1 ≤ f.mag ∧ f.mag ≤ 10 ∧
          (∃ z : ℤ, f.mag = (z : ℚ)) ∧ f.aiPredicted = true) ∧
      (preds.get? i = some none →
        (AppMapUtils.convertCrashDataToGeoJSON crashes).get? i = some f ∧
          f.aiPredicted = false) ∧
      AppMapUtils.generateDCPointMag (some q) r = AppMapUtils.aiMagnitude q ∧
      1 ≤ AppMapUtils.generateDCPointMag (some q) r ∧
      AppMapUtils.generateDCPointMag (some q) r ≤ 10 ∧
      AppMapUtils.generateDCPointMag none r = r := by
  have hone : ∀ p : ℚ, 1 ≤ AppMapUtils.aiMagnitude p := fun p => le_max_left _ _
  have hten : ∀ p : ℚ, AppMapUtils.aiMagnitude p ≤ 10 := fun p =>
    max_le (by norm_num) (min_le_left _ _)
  have hint : ∀ p : ℚ, ∃ z : ℤ, AppMapUtils.aiMagnitude p = (z : ℚ) := by
    intro p
    refine ⟨max 1 (min 10 (AppMapUtils.jsRound p)), ?_⟩
    unfold AppMapUtils.aiMagnitude
    push_cast
    rfl
  unfold AppMapUtils.convertCrashDataToGeoJSONWithAI at hf
  rcases (List.get?_zipWith_eq_some _ _ _ _ _).1 hf with ⟨x, y, hx, hy, hxy⟩
  refine ⟨?_, ?_, rfl, hone q, hten q, rfl⟩
  · intro p hp
    rw [hy] at hp
    cases hp
    subst hxy
    exact ⟨rfl, hone p, hten p, hint p, rfl⟩
  · intro hp
    rw [hy] at hp
    cases hp
    subst hxy
    exact ⟨hx, app_convert_aiPredicted_false crashes x (List.get?_mem hx)⟩

/-- C10 witness: a negative fractional prediction for the all-zero crash is
clamped up to magnitude 1 with the AI flag set. -/
theorem claim_C10_witness :
    ((⟨(1, 1), AppMapUtils.aiMagnitude (-7/2), TestData.zeroCrash, true⟩ :
        PointFeature).mag = AppMapUtils.aiMagnitude (-7/2) ∧
      1 ≤ (⟨(1, 1), AppMapUtils.aiMagnitude (-7/2), TestData.zeroCrash, true⟩ :
        PointFeature).mag ∧
      (⟨(1, 1), AppMapUtils.aiMagnitude (-7/2), TestData.zeroCrash, true⟩ :
        PointFeature).mag ≤ 10 ∧
      (∃ z : ℤ,
        (⟨(1, 1), AppMapUtils.aiMagnitude (-7/2), TestData.zeroCrash, true⟩ :
          PointFeature).mag = (z : ℚ)) ∧
      (⟨(1, 1), AppMapUtils.aiMagnitude (-7/2), TestData.zeroCrash, true⟩ :
        PointFeature).aiPredicted = true) := by
  have h := claim_C10_ai_prediction_applied [TestData.zeroCrash] [some (-7/2)]
    0 ⟨(1, 1), AppMapUtils.aiMagnitude (-7/2), TestData.zeroCrash, true⟩
    (-7/2) 0 ?_
  · exact h.1 (-7/2) rfl
  · unfold AppMapUtils.convertCrashDataToGeoJSONWithAI
      AppMapUtils.convertCrashDataToGeoJSON
    simp [TestData.zeroCrash, AppMapUtils.enhanceFeature,
      AppMapUtils.fallbackSeverityScore]

/-- C3 counterexample.  With the breaker open after three failures at time
0, the probe call at time 300001 (one millisecond past the cool-down) is
attempted and fails, leaving the counter at 1; the claim then requires the
breaker to be back to Open, yet the very next call one millisecond later is
attempted, not short-circuited. -/
theorem claim_C3_counterexample :
    CrashMagnitudeApi.getCrashMagnitudePredictionStep ⟨3, 0⟩ 300001 false
        = (⟨1, 300001⟩, true) ∧
      (CrashMagnitudeApi.getCrashMagnitudePredictionStep ⟨1, 300001⟩ 300002
          false).2 = true := by
  decide

/-- C3 (amended).  The breaker reports open exactly when the failure
counter has reached the threshold of 3 within the reset window; while open,
every call up to and including the cool-down boundary — in particular one
millisecond before expiry — is short-circuited with no network attempt and
no state change; any call strictly past the cool-down is attempted; and a
failed probe after the cool-down restarts the counter at 1 with a fresh
failure timestamp, leaving the breaker closed (the following call is
attempted again) rather than immediately open. -/
theorem claim_C3_breaker_amended (k : ℕ) (t nowA : ℤ)
    (sB : CrashMagnitudeApi.BreakerState) (nowB : ℤ) (succB : Bool)
    (sC : CrashMagnitudeApi.BreakerState) (nowC : ℤ) (succC : Bool)
    (sD : CrashMagnitudeApi.BreakerState) (nowD later : ℤ) (succD : Bool)
    (hA : nowA - t ≤ CrashMagnitudeApi.CIRCUIT_BREAKER_RESET_TIME)
    (hB1 : CrashMagnitudeApi.CIRCUIT_BREAKER_THRESHOLD
      ≤ sB.circuitBreakerFailures)
    (hB2 : nowB - sB.circuitBreakerLastFailTime
      ≤ CrashMagnitudeApi.CIRCUIT_BREAKER_RESET_TIME)
    (hC : CrashMagnitudeApi.CIRCUIT_BREAKER_RESET_TIME
      < nowC - sC.circuitBreakerLastFailTime)
    (hD : CrashMagnitudeApi.CIRCUIT_BREAKER_RESET_TIME
      < nowD - sD.circuitBreakerLastFailTime) :
    (CrashMagnitudeApi.isCircuitBreakerOpen ⟨k, t⟩ nowA).2
        = decide (CrashMagnitudeApi.CIRCUIT_BREAKER_THRESHOLD ≤ k) ∧
      CrashMagnitudeApi.getCrashMagnitudePredictionStep sB nowB succB
        = (sB, false) ∧
      (CrashMagnitudeApi.getCrashMagnitudePredictionStep sC nowC succC).2
        = true ∧
      CrashMagnitudeApi.getCrashMagnitudePredictionStep sD nowD false
        = (⟨1, nowD⟩, true) ∧
      (CrashMagnitudeApi.getCrashMagnitudePredictionStep ⟨1, nowD⟩ later
          succD).2 = true := by
  refine ⟨?_, ?_, ?_, ?_, ?_⟩
  · unfold CrashMagnitudeApi.isCircuitBreakerOpen
    rw [if_neg (not_lt.2 hA)]
  · unfold CrashMagnitudeApi.getCrashMagnitudePredictionStep
      CrashMagnitudeApi.isCircuitBreakerOpen
    rw [if_neg (not_lt.2 hB2)]
    simp [hB1]
  · unfold CrashMagnitudeApi.getCrashMagnitudePredictionStep
      CrashMagnitudeApi.isCircuitBreakerOpen
    rw [if_pos hC]
    rcases succC <;> simp
  · unfold CrashMagnitudeApi.getCrashMagnitudePredictionStep
      CrashMagnitudeApi.isCircuitBreakerOpen
      CrashMagnitudeApi.recordCircuitBreakerFailure
    rw [if_pos hD]
    simp
  · unfold CrashMagnitudeApi.getCrashMagnitudePredictionStep
      CrashMagnitudeApi.isCircuitBreakerOpen
    by_cases h : CrashMagnitudeApi.CIRCUIT_BREAKER_RESET_TIME < later - nowD
    · rw [if_pos h]
      rcases succD <;> simp
    · rw [if_neg h]
      rcases succD <;> simp [CrashMagnitudeApi.CIRCUIT_BREAKER_THRESHOLD]

/-- C3 witness: the amended behaviour evaluated on the concrete run used in
the specification — threshold reached at time 0, a short-circuited call one
millisecond before cool-down expiry, an attempted probe one millisecond
after, and a closed breaker following the failed probe. -/
theorem claim_C3_witness :
    (CrashMagnitudeApi.isCircuitBreakerOpen ⟨3, 0⟩ 5).2
        = decide (CrashMagnitudeApi.CIRCUIT_BREAKER_THRESHOLD ≤ 3) ∧
      CrashMagnitudeApi.getCrashMagnitudePredictionStep ⟨3, 0⟩ 299999 true
        = (⟨3, 0⟩, false) ∧
      (CrashMagnitudeApi.getCrashMagnitudePredictionStep ⟨3, 0⟩ 300001
          true).2 = true ∧
      CrashMagnitudeApi.getCrashMagnitudePredictionStep ⟨3, 0⟩ 300001 false
        = (⟨1, 300001⟩, true) ∧
      (CrashMagnitudeApi.getCrashMagnitudePredictionStep ⟨1, 300001⟩ 300002
          true).2 = true :=
  claim_C3_breaker_amended 3 0 5 ⟨3, 0⟩ 299999 true ⟨3, 0⟩ 300001 true
    ⟨3, 0⟩ 300001 300002 true (by decide) (by decide) (by decide) (by decide)
    (by decide)

/-- C7 counterexample.  The gradient encoder of src/web/src/app/lib — the
variant DirectionsSidebar.tsx imports — returns a green-to-red pair for the
empty density list, not a single flat low-risk color, and a one-element
stop list (not two stops) for the input [5]. -/
theorem claim_C7_counterexample :
    (AppMapUtils.createRouteGradientStops []).map Prod.snd = ["green", "red"] ∧
      "green" ≠ "red" ∧
      (AppMapUtils.createRouteGradientStops [5]).length = 1 := by
  decide

/-- C7 (amended).  The gradient encoder of src/web/src/lib behaves as the
claim states: the empty density list yields the flat low-risk green pair
spanning positions 0 to 1, and the list [5] yields exactly two stops at
positions 0 and 1 carrying the same color bucket; the encoder of
src/web/src/app/lib instead yields a green-to-red default for the empty
list and a single stop for [5]. -/
theorem claim_C7_gradient_stops_amended :
    LibMapUtils.createRouteGradientStops [] = [(0, "#00ff00"), (1, "#00ff00")] ∧
      LibMapUtils.createRouteGradientStops [5]
        = [(0, "#ff0000"), (1, "#ff0000")] ∧
      AppMapUtils.createRouteGradientStops [] = [(0, "green"), (1, "red")] ∧
      (AppMapUtils.createRouteGradientStops [5]).length = 1 := by
  refine ⟨rfl, ?_, rfl, ?_⟩ <;>
    norm_num [LibMapUtils.createRouteGradientStops,
      AppMapUtils.createRouteGradientStops, LibMapUtils.gradientColor,
      List.enum, List.enumFrom, List.getLastD]

/-- C8 counterexample.  Scaling the density list [1] by the positive
constant 1/2 moves its only segment from the highest bucket (intensity 1,
red) to the second bucket (intensity 1/2, orange): the floor of 1 inside
max(densities, 1) breaks scale invariance. -/
theorem claim_C8_counterexample :
    (0 : ℚ) < 1/2 ∧
      (LibMapUtils.createRouteGradientStops ([1].map fun d => (1/2 : ℚ) * d)).map
          Prod.snd = ["#ff6600", "#ff6600"] ∧
      (LibMapUtils.createRouteGradientStops [1]).map Prod.snd
        = ["#ff0000", "#ff0000"] ∧
      ("#ff6600" : String) ≠ "#ff0000" := by
  refine ⟨by norm_num, ?_, ?_, by decide⟩ <;>
    norm_num [LibMapUtils.createRouteGradientStops, LibMapUtils.gradientColor,
      List.enum, List.enumFrom, List.getLastD]

/-- C8 (amended).  Uniform scaling of all densities by a positive constant
leaves every gradient stop — position and color bucket — unchanged,
provided the true density maximum is at least 1 both before and after
scaling, so that the floor inside max(densities, 1) is not engaged; when
the floor is engaged the bucketing is not scale invariant (see the
counterexample). -/
theorem claim_C8_bucket_scale_amended (ds : List ℚ) (c : ℚ) (hc : 0 < c)
    (h1 : 1 ≤ ds.foldl max 0) (h2 : 1 ≤ c * ds.foldl max 0) :
    LibMapUtils.createRouteGradientStops (ds.map fun d => c * d)
      = LibMapUtils.createRouteGradientStops ds := by
  have hmax10 : max (1 : ℚ) 0 = 1 := by norm_num
  have hm1 : ds.foldl max 1 = ds.foldl max 0 := by
    have h := foldl_max_max ds 1 0
    rw [hmax10] at h
    rw [h, max_eq_right h1]
  have hm0 : (ds.map fun d => c * d).foldl max 0 = c * ds.foldl max 0 := by
    have h := foldl_max_map_mul c hc.le ds 0
    rwa [mul_zero] at h
  have hm2 : (ds.map fun d => c * d).foldl max 1 = c * ds.foldl max 0 := by
    have h := foldl_max_max (ds.map fun d => c * d) 1 0
    rw [hmax10] at h
    rw [h, hm0, max_eq_right h2]
  have hstops :
      ((ds.map fun d => c * d).enum.map fun p =>
          ((p.1 : ℚ) / max 1 ((ds.length : ℚ) - 1),
            LibMapUtils.gradientColor
              (p.2 / ((ds.map fun d => c * d).foldl max 1))))
        = ds.enum.map fun p =>
          ((p.1 : ℚ) / max 1 ((ds.length : ℚ) - 1),
            LibMapUtils.gradientColor (p.2 / ds.foldl max 1)) := by
    rw [hm1, hm2, enum_map, List.map_map]
    apply List.map_congr_left
    intro p _
    simp only [Function.comp, Prod.map, id]
    rw [mul_div_mul_left _ _ (ne_of_gt hc)]
  simp only [LibMapUtils.createRouteGradientStops, List.length_map, hstops]

/-- C8 witness: doubling the densities [1, 2] (maximum 2, still at least 1
after scaling by 1/2 is not needed here — the maxima 2 and 4 both clear the
floor) leaves the gradient stops unchanged. -/
theorem claim_C8_witness :
    LibMapUtils.createRouteGradientStops ([1, 2].map fun d => (2 : ℚ) * d)
      = LibMapUtils.createRouteGradientStops [1, 2] :=
  claim_C8_bucket_scale_amended [1, 2] 2 (by norm_num)
    (by norm_num [List.foldl]) (by norm_num [List.foldl])

/-- C9 counterexample.  A crash record with zero involvement counts lies
within the buffer yet contributes the floored weight 1 — not the claimed
5·fatalities + 3·majorInjuries + 1·other = 0 — so the segment sum is 1/20
after normalisation instead of 0. -/
theorem claim_C9_counterexample :
    AppMapUtils.dangerWeight TestData.zeroCrash = 1 ∧
      SpecModel.dangerWeightSpec TestData.zeroCrash = 0 ∧
      AppMapUtils.dangerWeight TestData.zeroCrash
        ≠ SpecModel.dangerWeightSpec TestData.zeroCrash ∧
      AppMapUtils.calculateRouteCrashDensity TestData.discreteDist [(1, 1)]
        [TestData.zeroCrash] 300 = [1/20] := by
  refine ⟨?_, ?_, ?_, ?_⟩ <;>
    norm_num [AppMapUtils.calculateRouteCrashDensity, AppMapUtils.dangerWeight,
      SpecModel.dangerWeightSpec, TestData.discreteDist, TestData.zeroCrash]

/-- C9 (amended).  Each incident within the buffer distance of a route
point contributes the scalar danger weight max(1, 5 per fatality + 3 per
major injury + 1 per other involved party) — the spec formula floored at 1,
with which it agrees whenever the incident involves at least one party —
and these uncapped weights are summed per route sample point, the sum being
reported as min(1, sum / 20). -/
theorem claim_C9_corridor_weights_amended (dist : DistFn)
    (coords : List (ℚ × ℚ)) (crashes : List CrashData) (radius : ℚ)
    (hinv : ∀ c ∈ crashes, 1 ≤ SpecModel.dangerWeightSpec c) :
    (∀ c ∈ crashes,
        AppMapUtils.dangerWeight c = SpecModel.dangerWeightSpec c) ∧
      AppMapUtils.calculateRouteCrashDensity dist coords crashes radius
        = coords.map fun point =>
            min 1
              (((crashes.filter fun c =>
                  dist point (c.longitude, c.latitude) ≤ radius).map
                SpecModel.dangerWeightSpec).sum / 20) := by
  have hw : ∀ c ∈ crashes,
      AppMapUtils.dangerWeight c = SpecModel.dangerWeightSpec c := by
    intro c hc
    unfold AppMapUtils.dangerWeight SpecModel.dangerWeightSpec
    exact max_eq_right (hinv c hc)
  refine ⟨hw, ?_⟩
  unfold AppMapUtils.calculateRouteCrashDensity
  apply List.map_congr_left
  intro point _
  have hsum := foldl_add_eq_sum AppMapUtils.dangerWeight
    (crashes.filter fun c =>
      dist point (c.longitude, c.latitude) ≤ radius) 0
  rw [hsum, zero_add]
  have hmap : (crashes.filter fun c =>
        dist point (c.longitude, c.latitude) ≤ radius).map
          AppMapUtils.dangerWeight
      = (crashes.filter fun c =>
          dist point (c.longitude, c.latitude) ≤ radius).map
          SpecModel.dangerWeightSpec :=
    List.map_congr_left fun c hc => hw c (List.mem_of_mem_filter hc)
  rw [hmap]

/-- C9 witness: a single-fatality crash at the route point has spec weight
5, and the corridor density is min(1, 5/20) = 1/4 computed either way. -/
theorem claim_C9_witness :
    (∀ c ∈ [TestData.fatalCrash],
        AppMapUtils.dangerWeight c = SpecModel.dangerWeightSpec c) ∧
      AppMapUtils.calculateRouteCrashDensity TestData.discreteDist [(0, 0)]
          [TestData.fatalCrash] 300
        = [(0, 0)].map fun point =>
            min 1
              ((([TestData.fatalCrash].filter fun c =>
                  TestData.discreteDist point (c.longitude, c.latitude)
                    ≤ 300).map SpecModel.dangerWeightSpec).sum / 20) :=
  claim_C9_corridor_weights_amended TestData.discreteDist [(0, 0)]
    [TestData.fatalCrash] 300
    (by norm_num [SpecModel.dangerWeightSpec, TestData.fatalCrash])

/-- C1 counterexample.  Two candidates whose normalized corridor risks
differ — the second strictly safer per unit length, the first faster — and
the handler still selects index 0, the provider's first route: the claimed
lowest-normalized-risk selection (ties by duration) does not happen in the
client. -/
theorem claim_C1_counterexample :
    DirectionsSidebar.handleGetRouteSelectedIndex
        [TestData.routeA, TestData.routeB] = some 0 ∧
      DirectionsSidebar.routeNormalizedRisk TestData.discreteDist
          [TestData.fatalCrash] 300 TestData.routeB
        < DirectionsSidebar.routeNormalizedRisk TestData.discreteDist
          [TestData.fatalCrash] 300 TestData.routeA := by
  constructor
  · rfl
  · norm_num [DirectionsSidebar.routeNormalizedRisk,
      AppMapUtils.calculateRouteCrashDensity, AppMapUtils.dangerWeight,
      TestData.discreteDist, TestData.fatalCrash, TestData.routeA,
      TestData.routeB]

/-- C1 (amended).  For every non-empty list of provider candidates the
client-side handler selects index 0 — the provider's first route —
unconditionally; the normalized-risk comparison the claim describes is not
performed on the candidates (a separately displayed safe route comes from
an external service). -/
theorem claim_C1_selection_amended
    (routes : List DirectionsSidebar.RouteCandidate) (hne : routes ≠ []) :
    DirectionsSidebar.handleGetRouteSelectedIndex routes = some 0 := by
  unfold DirectionsSidebar.handleGetRouteSelectedIndex
  rw [if_neg]
  simp [hne]

/-- C1 witness: with the two concrete candidates the handler selects the
first. -/
theorem claim_C1_witness :
    DirectionsSidebar.handleGetRouteSelectedIndex
      [TestData.routeA, TestData.routeB] = some 0 :=
  claim_C1_selection_amended [TestData.routeA, TestData.routeB]
    (List.cons_ne_nil _ _)
